import Mathlib

/-!
Verification of the Route Sequencing Engine of the DriversProject repository.

The engine lives in `src/algorithms/tsp.js` (nearest-neighbor construction,
2-opt improvement, TSP metrics), `src/algorithms/dijkstra.js` (the
frontier/"dijkstra" sequencer, metrics, mid-route reoptimization, shipped in
`src/unnamed/part_006`), the route-optimization controller
(`src/unnamed/part_001`) and the Google-Maps oracle service
(`src/unnamed/part_006`, `getDistanceMatrix`).

Modelling conventions, stated once here:

* Distances handled by the numeric algorithms are JavaScript numbers that are
  either nonnegative integers (metres, from the oracle) or `Infinity`.  They
  are embedded as `WithTop Nat` (`Dist` below); `⊤` is `Infinity`.  JS
  `a + b` and `a < b` on such numbers agree with the `WithTop Nat` operations.
* The oracle (`getDistanceMatrix`) returns, on success, an N×N matrix whose
  cell (i,j) is either `null` (leg failed) or an object
  `{distance: {value}, duration: {value}}`.  A successful oracle is embedded
  as `o : α → α → Option Cell` with `Cell = ℕ × ℕ`
  (distance metres, duration seconds): `none` is the `null` cell, and
  `o p q` is the cell at the row of point `p` and column of point `q` of the
  matrix the service would return for any list containing `p` and `q`
  (the service builds every cell from the (origin, destination) pair alone).
* JS arrays are `List`s; the `visited` boolean array that every loop keeps in
  lockstep with the growing tour is represented by membership in the tour
  itself (the code establishes `visited[i] === tour.includes(i)` at every
  step, so this is the same predicate).
* `dijkstra.js` `findOptimalRoute` feeds the RAW oracle matrix (cells are
  objects or `null`, not numbers) to its relaxation loop.  JS relational
  comparison first applies ToNumber after ToPrimitive: a plain object becomes
  `NaN` (every comparison false) and `null` becomes `0`.  The loop is
  therefore embedded over the value domain `JSVal` below with exactly that
  coercion, not over numbers.
* Throwing JS code is embedded in `Option`/`Except`: `none`/`.error` is a
  thrown error, and an HTTP 400/500 response body is the `Except` error
  payload.
-/

namespace Drivers

/-- JavaScript numbers as used by the numeric route algorithms:
nonnegative integers or `Infinity` (`⊤`). -/
abbrev Dist := WithTop Nat

/-- An oracle matrix cell `{distance: {value}, duration: {value}}`:
distance in metres, duration in seconds. -/
abbrev Cell := Nat × Nat

/-! ## `tsp.js` — nearest neighbor construction -/

/-- The scan of `nearestNeighbor`'s inner `for` loop (tsp.js lines 29-34):
over `i = 0 .. n-1`, if `i` is unvisited and `D current i` is strictly below
the best distance so far (initially `Infinity` with no point selected),
record `i`.  Returns the selected point, `none` standing for the sentinel
`-1`.  Strict `<` makes ties resolve to the first index encountered. -/
def nearestScan (D : Nat → Nat → Dist) (tour : List Nat) (current n : Nat) :
    Option Nat :=
  ((List.range n).foldl
    (fun acc i =>
      if i ∉ tour ∧ D current i < acc.2 then (some i, D current i) else acc)
    ((none : Option Nat), (⊤ : Dist))).1

/-- The fold function of `nearestScan`, named for the proofs below. -/
def nsf (D : Nat → Nat → Dist) (tour : List Nat) (current : Nat)
    (acc : Option Nat × Dist) (i : Nat) : Option Nat × Dist :=
  if i ∉ tour ∧ D current i < acc.2 then (some i, D current i) else acc

/-- The `while (tour.length < numPoints)` loop of `nearestNeighbor`
(tsp.js lines 24-40).  The partial tour is carried reversed (`rev`), so its
head is the JS `tour[tour.length - 1]`; the final result is reversed back.
`fuel` bounds the iteration count; each iteration grows the tour by one, so
any `fuel ≥ n` computes the exact JS result. -/
def nnLoop (D : Nat → Nat → Dist) (n : Nat) : Nat → List Nat → List Nat
  | 0, rev => rev.reverse
  | fuel + 1, rev =>
    if rev.length < n then
      match nearestScan D rev (rev.headD 0) n with
      | none => rev.reverse
      | some p => nnLoop D n fuel (p :: rev)
    else rev.reverse

/-- The function `nearestNeighbor(distanceMatrix, startIndex)` of tsp.js (lines 16-43),
over a matrix of size `n`. -/
def nearestNeighbor (D : Nat → Nat → Dist) (n startIndex : Nat) : List Nat :=
  nnLoop D n n [startIndex]

/-! ## `tsp.js` — tour distance and 2-opt -/

/-- The function `calculateTourDistance(tour, distanceMatrix)` (tsp.js lines 51-63):
sum of the legs between consecutive tour entries; the return-to-start leg is
commented out in the source and hence absent. -/
def calculateTourDistance (tour : List Nat) (D : Nat → Nat → Dist) : Dist :=
  (List.zipWith D tour tour.tail).sum

/-- The tour obtained from `tour` by reversing the segment of positions
`i+1 .. j` inclusive — the inner `while (left < right)` swap loop of
`twoOptImprovement` (tsp.js lines 89-97). -/
def segReverse (tour : List Nat) (i j : Nat) : List Nat :=
  tour.take (i + 1) ++ ((tour.drop (i + 1)).take (j - i)).reverse
    ++ tour.drop (j + 1)

/-- The pairs `(i, j)` scanned by `twoOptImprovement`'s two nested `for`
loops, in scan order: `i = 0 .. len-3`, `j = i+2 .. len-1`.  (The source's
`if (j === i + 1) continue` is dead code because `j` starts at `i + 2`.) -/
def improvePairs (len : Nat) : List (Nat × Nat) :=
  (List.range (len - 2)).flatMap
    (fun i => (List.range' (i + 2) (len - (i + 2))).map (fun j => (i, j)))

/-- One pass of `twoOptImprovement`'s pair scan (tsp.js lines 83-110): the
first pair whose segment reversal strictly reduces the tour distance yields
the new tour (the source `break`s out of both loops on it); `none` means the
pass found no improvement. -/
def findImprovement (D : Nat → Nat → Dist) (best : List Nat) :
    Option (List Nat) :=
  (improvePairs best.length).findSome?
    (fun ij =>
      let t := segReverse best ij.1 ij.2
      if calculateTourDistance t D < calculateTourDistance best D then some t
      else none)

/-- The `while (improved && iteration < maxIterations)` loop of
`twoOptImprovement` (tsp.js lines 79-111): each iteration either installs the
first improving reversal and rescans, or terminates. -/
def twoOptLoop (D : Nat → Nat → Dist) : Nat → List Nat → List Nat
  | 0, best => best
  | fuel + 1, best =>
    match findImprovement D best with
    | none => best
    | some t => twoOptLoop D fuel t

/-- The function `twoOptImprovement(tour, distanceMatrix, maxIterations)` of tsp.js
(lines 73-114).  The source's default for `maxIterations` is 100; call sites
of the model pass 100 explicitly. -/
def twoOptImprovement (tour : List Nat) (D : Nat → Nat → Dist)
    (maxIterations : Nat) : List Nat :=
  twoOptLoop D maxIterations tour

/-! ## `dijkstra.js` — the frontier sequencer over raw oracle cells

`findOptimalRoute` (dijkstra.js lines 16-73) does NOT convert the oracle
matrix to numbers (its sibling `findOptimalRouteTSP` does, tsp.js lines
131-133).  Its `distances` array therefore mixes JS numbers (`Infinity`,
`0`) with raw matrix cells (plain objects) and `null`s, and all of its `<`
comparisons go through JS coercion: ToPrimitive of a plain object is
`"[object Object]"`, whose ToNumber is `NaN`, and every comparison against
`NaN` is false; ToNumber of `null` is `0`.  `JSVal` is that value domain and
`jsLt` that comparison. -/

/-- A value stored in `findOptimalRoute`'s `distances` array or read from the
raw oracle matrix: a JS number (possibly `Infinity`), `null`, or a cell
object `{distance, duration, duration_in_traffic}`. -/
inductive JSVal where
  | num : Dist → JSVal
  | jsnull : JSVal
  | cellObj : Nat → Nat → JSVal
deriving DecidableEq

/-- JS `ToNumber` on the values above; `none` is `NaN` (a plain object's
ToPrimitive is the string `"[object Object]"`, which is not numeric). -/
def toNumber : JSVal → Option Dist
  | .num x => some x
  | .jsnull => some 0
  | .cellObj _ _ => none

/-- The JS `<` relational comparison on `JSVal`s: both sides are passed
through ToNumber and any comparison involving `NaN` is false. -/
def jsLt (a b : JSVal) : Bool :=
  match toNumber a, toNumber b with
  | some x, some y => decide (x < y)
  | _, _ => false

/-- A raw oracle matrix cell as the value `findOptimalRoute` reads:
`null` or the cell object. -/
def cellVal : Option Cell → JSVal
  | some c => .cellObj c.1 c.2
  | none => .jsnull

/-- The relaxation `for` loop of `findOptimalRoute` (dijkstra.js lines
40-45): for each unvisited `i` with `matrix[current][i] < distances[i]` (JS
comparison), store the raw cell into `distances[i]`.  (The `previous` array
the source also writes is never read on any path to the returned value and
is omitted.) -/
def relaxAll (M : Nat → Nat → JSVal) (path : List Nat) (current n : Nat)
    (dist : Nat → JSVal) : Nat → JSVal :=
  (List.range n).foldl
    (fun d i =>
      if i ∉ path ∧ jsLt (M current i) (d i)
      then fun j => if j = i then M current i else d j
      else d)
    dist

/-- The selection `for` loop of `findOptimalRoute` (dijkstra.js lines
48-56): the unvisited index of minimum `distances` value under the JS `<`
comparison, starting from `minDistance = Infinity`; `none` is the sentinel
`-1`. -/
def selectMin (path : List Nat) (n : Nat) (dist : Nat → JSVal) : Option Nat :=
  ((List.range n).foldl
    (fun acc i =>
      if i ∉ path ∧ jsLt (dist i) acc.2 then (some i, dist i) else acc)
    ((none : Option Nat), JSVal.num ⊤)).1

/-- The `while (path.length < allPoints.length)` loop of `findOptimalRoute`
(dijkstra.js lines 38-65), with the path carried reversed.  Any
`fuel ≥ n` computes the exact JS result. -/
def dijkstraLoop (M : Nat → Nat → JSVal) (n : Nat) :
    Nat → List Nat → Nat → (Nat → JSVal) → List Nat
  | 0, path, _, _ => path.reverse
  | fuel + 1, path, current, dist =>
    if path.length < n then
      let d := relaxAll M path current n dist
      match selectMin path n d with
      | none => path.reverse
      | some p => dijkstraLoop M n fuel (p :: path) p d
    else path.reverse

/-- The index-level part of `findOptimalRoute`: `distances` initialised to
`Infinity` except `distances[0] = 0`, point `0` visited, path `[0]`. -/
def dijkstraPath (M : Nat → Nat → JSVal) (n : Nat) : List Nat :=
  dijkstraLoop M n n [0] 0
    (fun j => if j = 0 then JSVal.num 0 else JSVal.num ⊤)

/-! ## Oracle-level route functions -/

/-- The function `findOptimalRoute(points, startPoint)` of dijkstra.js (lines 16-73):
prepend the start, fetch the raw matrix for `startPoint :: points`, run the
loop above, and map the resulting indices back to points.  Every index the
loop produces is in range, so the out-of-range default of `getD` is never
reached. -/
def findOptimalRoute {α : Type} (o : α → α → Option Cell) (points : List α)
    (startPoint : α) : List α :=
  let allPoints := startPoint :: points
  let M : Nat → Nat → JSVal := fun i j =>
    cellVal (o (allPoints.getD i startPoint) (allPoints.getD j startPoint))
  (dijkstraPath M allPoints.length).map
    (fun index => allPoints.getD index startPoint)

/-- The numeric conversion of `findOptimalRouteTSP` (tsp.js lines 131-133):
`rawDistanceMatrix.map(row => row.map(cell => cell.distance ?
cell.distance.value : Infinity))`.  A `null` cell throws a `TypeError`
(`null.distance`), modelled by `none`; a non-`null` oracle cell always has a
truthy `distance` object, so the `Infinity` branch of the ternary is dead
for matrices produced by `getDistanceMatrix`. -/
def matrixConvert {α : Type} (o : α → α → Option Cell) (pts : List α) :
    Option (List (List Dist)) :=
  pts.mapM (fun p => pts.mapM (fun q => (o p q).map (fun c => (c.1 : Dist))))

/-- The function `findOptimalRouteTSP(points, startPoint)` of tsp.js (lines 122-147):
prepend the start, convert the oracle matrix to numbers (throwing on a
`null` cell), run nearest-neighbor from index 0, improve with 2-opt
(`maxIterations` left at its default 100), map indices back to points.
`none` is the rethrown `'Failed to optimize route using TSP'`. -/
def findOptimalRouteTSP {α : Type} (o : α → α → Option Cell) (points : List α)
    (startPoint : α) : Option (List α) :=
  let allPoints := startPoint :: points
  match matrixConvert o allPoints with
  | none => none
  | some rows =>
    let D : Nat → Nat → Dist := fun i j => (rows.getD i []).getD j ⊤
    let initialTour := nearestNeighbor D allPoints.length 0
    let optimizedTour := twoOptImprovement initialTour D 100
    some (optimizedTour.map (fun index => allPoints.getD index startPoint))

/-! ## Metrics -/

/-- The metrics object of `calculateRouteMetrics` (dijkstra.js lines
80-100): total distance in kilometres (`metres / 1000`) and total time in
minutes (`seconds / 60`). -/
structure Metrics where
  totalDistance : ℚ
  totalTime : ℚ
deriving DecidableEq

/-- The oracle cells of a route's consecutive legs, `matrix[i][i+1]` for
`i = 0 .. len-2`; `none` if any such cell is `null` (reading
`null.distance.value` throws). -/
def legCells {α : Type} (o : α → α → Option Cell) (route : List α) :
    Option (List Cell) :=
  (route.zip route.tail).mapM (fun pq => o pq.1 pq.2)

/-- The function `calculateRouteMetrics(route)` of dijkstra.js (lines 80-100): a fresh
oracle matrix is requested for the route and the consecutive legs are
summed; `none` is the rethrown `'Failed to calculate route metrics'`. -/
def calculateRouteMetrics {α : Type} (o : α → α → Option Cell)
    (route : List α) : Option Metrics :=
  (legCells o route).map
    (fun legs =>
      { totalDistance := ((legs.map Prod.fst).sum : ℚ) / 1000
        totalTime := ((legs.map Prod.snd).sum : ℚ) / 60 })

/-- A decimal digit as a character. -/
def digitChar : Nat → Char
  | 0 => '0'
  | 1 => '1'
  | 2 => '2'
  | 3 => '3'
  | 4 => '4'
  | 5 => '5'
  | 6 => '6'
  | 7 => '7'
  | 8 => '8'
  | _ => '9'

/-- Decimal digits of `n`, most significant first; any `fuel ≥ n`
suffices. -/
def natDigits : Nat → Nat → List Char
  | 0, _ => []
  | fuel + 1, n =>
    if n < 10 then [digitChar n]
    else natDigits fuel (n / 10) ++ [digitChar (n % 10)]

/-- Decimal rendering of a natural number. -/
def natToStr (n : Nat) : String := ⟨natDigits (n + 1) n⟩

/-- Decimal rendering of an integer. -/
def intToStr : Int → String
  | .ofNat n => natToStr n
  | .negSucc n => "-" ++ natToStr (n + 1)

/-- JS `x.toFixed(2)` for the nonnegative finite values produced here:
round `x` to hundredths and print with exactly two decimals. -/
def toFixed2 (x : ℚ) : String :=
  let n : Int := round (x * 100)
  intToStr (n / 100) ++ "." ++
    (if n % 100 < 10 then "0" else "") ++ natToStr (n % 100).toNat

/-- The metrics object of `calculateTSPRouteMetrics` (tsp.js lines
154-179): distance and time as in `calculateRouteMetrics`, plus
`fuelSavingsPercentage`. -/
structure TSPMetrics where
  totalDistance : ℚ
  totalTime : ℚ
  fuelSavingsPercentage : String
deriving DecidableEq

/-- The function `calculateTSPRouteMetrics(route)` of tsp.js (lines 154-179).  With
`totalDistance` the summed leg metres, the source computes
`estimated = totalDistance * 1.3` and
`fuelSavings = (estimated - totalDistance) / estimated * 100`, then
`fuelSavings.toFixed(2)`.  (For `totalDistance = 0` JS produces the string
`"NaN"` where this rational model yields `"0.00"`; no claim is settled in
that case.) -/
def calculateTSPRouteMetrics {α : Type} (o : α → α → Option Cell)
    (route : List α) : Option TSPMetrics :=
  (legCells o route).map
    (fun legs =>
      let totalDistance : ℚ := ((legs.map Prod.fst).sum : ℚ)
      let totalTime : ℚ := ((legs.map Prod.snd).sum : ℚ)
      let estimatedNonOptimizedDistance := totalDistance * 1.3
      let fuelSavings :=
        (estimatedNonOptimizedDistance - totalDistance) /
          estimatedNonOptimizedDistance * 100
      { totalDistance := totalDistance / 1000
        totalTime := totalTime / 60
        fuelSavingsPercentage := toFixed2 fuelSavings })

/-! ## Reoptimization -/

/-- The function `reoptimizeRoute(currentRoute, currentPointIndex)` of dijkstra.js
(lines 108-125): split at `currentPointIndex`, re-run `findOptimalRoute` on
the remaining points with `remainingPoints[0]` as the new start, and
prepend the untouched `currentRoute.slice(0, currentPointIndex)`.  The
empty-`remainingPoints` arm is unreachable: the controller validates
`currentPointIndex < currentRoute.length` before calling. -/
def reoptimizeRoute {α : Type} (o : α → α → Option Cell)
    (currentRoute : List α) (currentPointIndex : Nat) : List α :=
  match currentRoute.drop currentPointIndex with
  | [] => currentRoute.take currentPointIndex
  | p :: rest =>
    currentRoute.take currentPointIndex ++ findOptimalRoute o rest p

/-! ## The route-optimization controller (`src/unnamed/part_001`) -/

/-- The metrics payload of a controller response: `calculateRouteMetrics`
output on the dijkstra path, `calculateTSPRouteMetrics` output on the TSP
path. -/
inductive MetricsOut where
  | plainM : Metrics → MetricsOut
  | tspM : TSPMetrics → MetricsOut
deriving DecidableEq

/-- An error response: HTTP status code and message. -/
abbrev Err := Nat × String

/-- JS `String.prototype.toLowerCase` on one character, for the ASCII
algorithm names that reach it: lower-case A-Z, leave everything else. -/
def lowerChar (c : Char) : Char :=
  if 65 ≤ c.toNat ∧ c.toNat ≤ 90 then Char.ofNat (c.toNat + 32) else c

/-- JS `algorithm.toLowerCase()` (ASCII), written structurally so the
kernel can evaluate it. -/
def jsToLowerCase (s : String) : String := ⟨s.data.map lowerChar⟩

/-- The endpoint `optimizeRoute(req, res)` of the route-optimization controller (part_001
lines 450-516): validate that `deliveryPoints` is a non-empty array and that
a start point with coordinates is present (`none` models a missing or
coordinate-less `startPoint`), then run the algorithm selected by
`algorithm.toLowerCase() === 'tsp'`, defaulting to `findOptimalRoute`.
Geocoding of address-only points happens before the engine and is identity
on points that already carry coordinates. -/
def optimizeRoute {α : Type} (o : α → α → Option Cell)
    (deliveryPoints : List α) (startPoint : Option α) (algorithm : String) :
    Except Err (List α × MetricsOut) :=
  if deliveryPoints.isEmpty then
    .error (400, "Delivery points are required and must be a non-empty array")
  else
    match startPoint with
    | none => .error (400, "Start point with lat/lng coordinates is required")
    | some s =>
      if jsToLowerCase algorithm = "tsp" then
        match findOptimalRouteTSP o deliveryPoints s with
        | none => .error (500, "Failed to optimize route")
        | some route =>
          match calculateTSPRouteMetrics o route with
          | none => .error (500, "Failed to optimize route")
          | some m => .ok (route, .tspM m)
      else
        let route := findOptimalRoute o deliveryPoints s
        match calculateRouteMetrics o route with
        | none => .error (500, "Failed to optimize route")
        | some m => .ok (route, .plainM m)

/-- The endpoint `reoptimizeCurrentRoute(req, res)` of the controller (part_001 lines
523-588): validate route non-empty, position present, and
`0 ≤ currentPointIndex < currentRoute.length`; on the `'tsp'` branch rerun
`findOptimalRouteTSP` on `currentRoute.slice(currentPointIndex + 1)` with
the caller's `currentPosition` as start and prepend
`currentRoute.slice(0, currentPointIndex)`; otherwise delegate to
`reoptimizeRoute`. -/
def reoptimizeCurrentRoute {α : Type} (o : α → α → Option Cell)
    (currentRoute : List α) (currentPosition : Option α)
    (currentPointIndex : Nat) (algorithm : String) :
    Except Err (List α × MetricsOut) :=
  if currentRoute.isEmpty then
    .error (400, "Current route is required and must be a non-empty array")
  else
    match currentPosition with
    | none =>
      .error (400, "Current position with lat/lng coordinates is required")
    | some pos =>
      if currentPointIndex < currentRoute.length then
        if jsToLowerCase algorithm = "tsp" then
          let remainingPoints := currentRoute.drop currentPointIndex
          match findOptimalRouteTSP o (remainingPoints.drop 1) pos with
          | none => .error (500, "Failed to reoptimize route")
          | some tspPart =>
            let combined := currentRoute.take currentPointIndex ++ tspPart
            match calculateTSPRouteMetrics o combined with
            | none => .error (500, "Failed to reoptimize route")
            | some m => .ok (combined, .tspM m)
        else
          let r := reoptimizeRoute o currentRoute currentPointIndex
          match calculateRouteMetrics o r with
          | none => .error (500, "Failed to reoptimize route")
          | some m => .ok (r, .plainM m)
      else .error (400, "Valid current point index is required")

/-- The comparison payload of `compareAlgorithms` (part_001 lines 686-703).
The wall-clock `computationTimeMs` fields are not statable in this
embedding and are omitted, as are the derived absolute-difference fields,
which are pure arithmetic on the metrics below; no claim mentions either. -/
structure Comparison (α : Type) where
  dijkstraRoute : List α
  dijkstraMetrics : Metrics
  tspRoute : List α
  tspMetrics : TSPMetrics
  recommended : String
deriving DecidableEq

/-- The endpoint `compareAlgorithms(req, res)` of the controller (part_001 lines
638-717): validate, run both algorithms on the identical processed points
and start, compute both metrics, and recommend
`tspMetrics.totalDistance <= dijkstraMetrics.totalDistance ? 'tsp' :
'dijkstra'`. -/
def compareAlgorithms {α : Type} (o : α → α → Option Cell)
    (deliveryPoints : List α) (startPoint : Option α) :
    Except Err (Comparison α) :=
  if deliveryPoints.isEmpty then
    .error (400, "Delivery points are required and must be a non-empty array")
  else
    match startPoint with
    | none => .error (400, "Start point with lat/lng coordinates is required")
    | some s =>
      let dijkstraRoute := findOptimalRoute o deliveryPoints s
      match calculateRouteMetrics o dijkstraRoute with
      | none => .error (500, "Failed to compare algorithms")
      | some dijkstraMetrics =>
        match findOptimalRouteTSP o deliveryPoints s with
        | none => .error (500, "Failed to compare algorithms")
        | some tspRoute =>
          match calculateTSPRouteMetrics o tspRoute with
          | none => .error (500, "Failed to compare algorithms")
          | some tspMetrics =>
            .ok { dijkstraRoute := dijkstraRoute
                  dijkstraMetrics := dijkstraMetrics
                  tspRoute := tspRoute
                  tspMetrics := tspMetrics
                  recommended :=
                    if tspMetrics.totalDistance ≤ dijkstraMetrics.totalDistance
                    then "tsp" else "dijkstra" }

/-! ## The oracle service `getDistanceMatrix` (`src/unnamed/part_006`,
lines 877-943) at the level of the upstream provider's response -/

/-- One element of the upstream Distance Matrix response: a status and, when
successful, distance/duration values. -/
structure DMElement where
  status : String
  distanceValue : Nat
  durationValue : Nat
deriving DecidableEq

/-- The upstream Distance Matrix response: a top-level status and the grid
of elements. -/
structure DMResponse where
  status : String
  rows : List (List DMElement)
deriving DecidableEq

/-- The per-element processing of `getDistanceMatrix` (part_006 lines
918-930): an element with status `'OK'` becomes a cell; every other
element becomes `null`, the unreachable marker. -/
def cellConv (e : DMElement) : Option Cell :=
  if e.status = "OK" then some (e.distanceValue, e.durationValue) else none

/-- The response-processing part of `getDistanceMatrix` (part_006 lines
906-938): a non-`'OK'` top-level status throws (rethrown as the generic
message below); otherwise each element is converted by `cellConv`.  The
`trafficAware` flag only changes the request parameters, not this
processing. -/
def getDistanceMatrixFromResponse (resp : DMResponse) :
    Except String (List (List (Option Cell))) :=
  if resp.status ≠ "OK" then
    .error "Failed to get distance matrix from Google Maps API"
  else
    .ok (resp.rows.map (fun row => row.map cellConv))

/-! ## The frontier heuristic as the spec describes it -/

/-- Modelled from the spec: section 4.4's frontier-expansion heuristic over
a NUMERIC distance matrix — relax `bestEdge` from the newest frontier
member, then annex the unvisited index of globally smallest `bestEdge`.
This is what dijkstra.js's loop computes once its matrix reads are numbers;
the source itself omits the cell-to-number conversion (see `JSVal` above),
so this definition exists to exhibit the intended result next to the
actual one. -/
def frontierRelax (D : Nat → Nat → Dist) (path : List Nat) (current n : Nat)
    (best : Nat → Dist) : Nat → Dist :=
  (List.range n).foldl
    (fun b i =>
      if i ∉ path ∧ D current i < b i
      then fun j => if j = i then D current i else b j
      else b)
    best

/-- Modelled from the spec: the selection step of section 4.4 (smallest
finite `bestEdge` among unvisited indices, `none` when there is none). -/
def frontierSelect (path : List Nat) (n : Nat) (best : Nat → Dist) :
    Option Nat :=
  ((List.range n).foldl
    (fun acc i =>
      if i ∉ path ∧ best i < acc.2 then (some i, best i) else acc)
    ((none : Option Nat), (⊤ : Dist))).1

/-- Modelled from the spec: the frontier-expansion loop of section 4.4. -/
def frontierLoop (D : Nat → Nat → Dist) (n : Nat) :
    Nat → List Nat → Nat → (Nat → Dist) → List Nat
  | 0, path, _, _ => path.reverse
  | fuel + 1, path, current, best =>
    if path.length < n then
      let b := frontierRelax D path current n best
      match frontierSelect path n b with
      | none => path.reverse
      | some p => frontierLoop D n fuel (p :: path) p b
    else path.reverse

/-- Modelled from the spec: the full visiting order of section 4.4 starting
at index 0. -/
def frontierPath (D : Nat → Nat → Dist) (n : Nat) : List Nat :=
  frontierLoop D n n [0] 0 (fun j => if j = 0 then 0 else ⊤)

/-! ## Concrete fixtures for the claim scenarios, counterexamples and
witnesses -/

/-- The 4-point scenario matrix of spec section 8: indices 0=H, 1=A, 2=B,
3=C with H-A=1, H-B=10, H-C=10, A-B=1, A-C=9, B-C=1 (symmetric, zero
diagonal). -/
def rowsScn : List (List Nat) :=
  [[0, 1, 10, 10], [1, 0, 1, 9], [10, 1, 0, 1], [10, 9, 1, 0]]

/-- Scenario distances as plain naturals. -/
def dScn (i j : Nat) : Nat := (rowsScn.getD i []).getD j 0

/-- The scenario matrix as a numeric distance matrix. -/
def D6 (i j : Nat) : Dist := ((dScn i j : Nat) : Dist)

/-- The scenario matrix as a total oracle (every leg reachable; duration
equal to distance). -/
def oScn : Nat → Nat → Option Cell := fun i j => some (dScn i j, dScn i j)

/-- A total constant oracle: every leg 1000 metres, 60 seconds. -/
def oConst : Nat → Nat → Option Cell := fun _ _ => some (1000, 60)

/-- The comparison record produced by
`compareAlgorithms oConst [1, 2] (some 0)`. -/
def cmpW : Comparison Nat :=
  { dijkstraRoute := [0]
    dijkstraMetrics := { totalDistance := 0, totalTime := 0 }
    tspRoute := [0, 1, 2]
    tspMetrics :=
      { totalDistance := 2, totalTime := 2, fuelSavingsPercentage := "23.08" }
    recommended := "dijkstra" }

/-- An upstream response whose top-level status is `OK` but whose (0,1)
element reports a failed leg. -/
def resp7 : DMResponse :=
  { status := "OK"
    rows := [[⟨"OK", 0, 0⟩, ⟨"NOT_FOUND", 0, 0⟩],
             [⟨"OK", 700, 80⟩, ⟨"OK", 0, 0⟩]] }

/-- The matrix `getDistanceMatrixFromResponse resp7` returns: the failed
leg is the `null` marker, not an error and not a default distance. -/
def mat7 : List (List (Option Cell)) :=
  [[some (0, 0), none], [some (700, 80), some (0, 0)]]

/-! ## General list lemmas -/

lemma foldl_fixed {σ ι : Type _} (f : σ → ι → σ) (l : List ι) (init : σ)
    (h : ∀ i ∈ l, f init i = init) : l.foldl f init = init := by
  induction l with
  | nil => rfl
  | cons i l ih =>
    rw [List.foldl_cons, h i (List.mem_cons_self i l)]
    exact ih (fun x hx => h x (List.mem_cons_of_mem _ hx))

lemma take_length_append_cons {α : Type} (l₁ : List α) (x : α) (l₂ : List α) :
    (l₁ ++ x :: l₂).take (l₁.length + 1) = l₁ ++ [x] := by
  induction l₁ with
  | nil => simp
  | cons a l ih => simpa using ih

lemma take_append_cons_of_length {α : Type} (l₁ : List α) (x : α)
    (l₂ : List α) (n : Nat) (h : l₁.length = n) :
    (l₁ ++ x :: l₂).take (n + 1) = l₁ ++ [x] := by
  subst h
  exact take_length_append_cons l₁ x l₂

lemma map_getD_range {α : Type} (d : α) (l : List α) :
    (List.range l.length).map (fun i => l.getD i d) = l := by
  induction l with
  | nil => simp
  | cons a l ih =>
    rw [List.length_cons, List.range_succ_eq_map, List.map_cons,
      List.map_map]
    simpa [Function.comp_def] using ih

lemma exists_unvisited (tour : List Nat) (n : Nat) (_h1 : tour.Nodup)
    (_h2 : ∀ x ∈ tour, x < n) (h3 : tour.length < n) :
    ∃ i, i < n ∧ i ∉ tour := by
  by_contra h
  push_neg at h
  have hsub : List.range n ⊆ tour := fun i hi => h i (List.mem_range.mp hi)
  have hle :=
    (List.subperm_of_subset (List.nodup_range n) hsub).length_le
  simp only [List.length_range] at hle
  omega

lemma perm_range_of_nodup_bounded (tour : List Nat) (n : Nat)
    (h1 : tour.Nodup) (h2 : ∀ x ∈ tour, x < n) (h3 : n ≤ tour.length) :
    tour.Perm (List.range n) := by
  have hsub : tour ⊆ List.range n := fun x hx => List.mem_range.mpr (h2 x hx)
  exact (List.subperm_of_subset h1 hsub).perm_of_length_le
    (by simpa using h3)

lemma length_le_of_nodup_bounded (tour : List Nat) (n : Nat)
    (h1 : tour.Nodup) (h2 : ∀ x ∈ tour, x < n) : tour.length ≤ n := by
  have hsub : tour ⊆ List.range n := fun x hx => List.mem_range.mpr (h2 x hx)
  simpa using (List.subperm_of_subset h1 hsub).length_le

/-! ## Facts about the nearest-neighbor scan -/

section NearestScan

variable (D : Nat → Nat → Dist) (tour : List Nat) (current : Nat)

lemma nsf_foldl_some (l : List Nat) (acc : Option Nat × Dist) (p : Nat)
    (h : (l.foldl (nsf D tour current) acc).1 = some p) :
    acc.1 = some p ∨ (p ∈ l ∧ p ∉ tour) := by
  induction l generalizing acc with
  | nil => exact Or.inl h
  | cons i l ih =>
    rw [List.foldl_cons] at h
    rcases ih _ h with h1 | h2
    · unfold nsf at h1
      split at h1
      · rename_i hc
        have hip : i = p := by simpa using h1
        subst hip
        exact Or.inr ⟨List.mem_cons_self i l, hc.1⟩
      · exact Or.inl h1
    · exact Or.inr ⟨List.mem_cons_of_mem _ h2.1, h2.2⟩

lemma nsf_foldl_isSome_mono (l : List Nat) (acc : Option Nat × Dist)
    (h : acc.1.isSome) : (l.foldl (nsf D tour current) acc).1.isSome := by
  induction l generalizing acc with
  | nil => exact h
  | cons i l ih =>
    rw [List.foldl_cons]
    apply ih
    unfold nsf
    split
    · rfl
    · exact h

lemma nsf_foldl_witness (l : List Nat) (acc : Option Nat × Dist)
    (hinv : acc.1 = none → acc.2 = ⊤) (i : Nat) (hmem : i ∈ l)
    (hi : i ∉ tour) (hfin : D current i < ⊤) :
    (l.foldl (nsf D tour current) acc).1.isSome := by
  induction l generalizing acc with
  | nil => cases hmem
  | cons a l ih =>
    rw [List.foldl_cons]
    rcases haccEq : acc.1 with _ | p
    · have htop := hinv haccEq
      rcases List.mem_cons.mp hmem with rfl | hmem'
      · have hc : i ∉ tour ∧ D current i < acc.2 := ⟨hi, htop ▸ hfin⟩
        apply nsf_foldl_isSome_mono
        unfold nsf
        rw [if_pos hc]
        rfl
      · by_cases hc : a ∉ tour ∧ D current a < acc.2
        · apply nsf_foldl_isSome_mono
          unfold nsf
          rw [if_pos hc]
          rfl
        · refine ih _ ?_ hmem'
          unfold nsf
          rw [if_neg hc]
          intro h; exact hinv h
    · apply nsf_foldl_isSome_mono
      unfold nsf
      split
      · rfl
      · rw [haccEq]; rfl

lemma nearestScan_eq_foldl (n : Nat) :
    nearestScan D tour current n =
      ((List.range n).foldl (nsf D tour current)
        ((none : Option Nat), (⊤ : Dist))).1 := rfl

/-- A selected point is unvisited and in range. -/
lemma nearestScan_some (n p : Nat)
    (h : nearestScan D tour current n = some p) : p ∉ tour ∧ p < n := by
  rw [nearestScan_eq_foldl] at h
  rcases nsf_foldl_some D tour current _ _ _ h with h1 | h2
  · cases h1
  · exact ⟨h2.2, List.mem_range.mp h2.1⟩

/-- If some unvisited in-range point is at finite distance, the scan
selects a point. -/
lemma nearestScan_isSome (n : Nat) (i : Nat) (hin : i < n) (hi : i ∉ tour)
    (hfin : D current i < ⊤) : (nearestScan D tour current n).isSome := by
  rw [nearestScan_eq_foldl]
  exact nsf_foldl_witness D tour current _ _ (fun _ => rfl) i
    (List.mem_range.mpr hin) hi hfin

end NearestScan

/-! ## Invariants of the nearest-neighbor loop -/

/-- Whatever the fuel, `nnLoop` only ever extends its accumulator with
fresh in-range points: the result is the reversal of `ext ++ rev` for some
extension `ext`, without duplicates and within range. -/
lemma nnLoop_shape (D : Nat → Nat → Dist) (n : Nat) :
    ∀ (fuel : Nat) (rev : List Nat), rev.Nodup → (∀ x ∈ rev, x < n) →
      ∃ ext : List Nat, nnLoop D n fuel rev = (ext ++ rev).reverse ∧
        (ext ++ rev).Nodup ∧ (∀ x ∈ ext ++ rev, x < n)
  | 0, rev, h1, h2 => ⟨[], rfl, by simpa using h1, by simpa using h2⟩
  | fuel + 1, rev, h1, h2 => by
    rw [nnLoop]
    by_cases hlen : rev.length < n
    · rw [if_pos hlen]
      cases hscan : nearestScan D rev (rev.headD 0) n with
      | none => exact ⟨[], rfl, by simpa using h1, by simpa using h2⟩
      | some p =>
        have hp := nearestScan_some D rev _ n p hscan
        have h1' : (p :: rev).Nodup := List.nodup_cons.mpr ⟨hp.1, h1⟩
        have h2' : ∀ x ∈ p :: rev, x < n := by
          intro x hx
          rcases List.mem_cons.mp hx with rfl | hx'
          · exact hp.2
          · exact h2 x hx'
        obtain ⟨ext, heq, hnd, hbd⟩ := nnLoop_shape D n fuel (p :: rev) h1' h2'
        refine ⟨ext ++ [p], ?_, ?_, ?_⟩
        · show nnLoop D n fuel (p :: rev) = (ext ++ [p] ++ rev).reverse
          rw [heq, List.append_assoc, List.singleton_append]
        · rw [List.append_assoc, List.singleton_append]; exact hnd
        · rw [List.append_assoc, List.singleton_append]; exact hbd
    · rw [if_neg hlen]
      exact ⟨[], rfl, by simpa using h1, by simpa using h2⟩

/-- With every in-range entry of the matrix finite, the loop can always
extend a proper partial tour, so with enough fuel it visits everything:
the result is a permutation of `range n`. -/
lemma nnLoop_perm (D : Nat → Nat → Dist) (n : Nat)
    (hD : ∀ i j, i < n → j < n → D i j < ⊤) :
    ∀ (fuel : Nat) (rev : List Nat), rev ≠ [] → rev.Nodup →
      (∀ x ∈ rev, x < n) → n ≤ fuel + rev.length →
      (nnLoop D n fuel rev).Perm (List.range n)
  | 0, rev, _, h1, h2, hfuel => by
    rw [nnLoop]
    refine perm_range_of_nodup_bounded _ n (by simpa using h1) ?_
      (by simpa using hfuel)
    intro x hx
    exact h2 x (List.mem_reverse.mp hx)
  | fuel + 1, rev, hne, h1, h2, hfuel => by
    rw [nnLoop]
    by_cases hlen : rev.length < n
    · rw [if_pos hlen]
      cases hscan : nearestScan D rev (rev.headD 0) n with
      | none =>
        exfalso
        obtain ⟨i, hin, hi⟩ := exists_unvisited rev n h1 h2 hlen
        have hcur : rev.headD 0 < n := by
          cases rev with
          | nil => exact absurd rfl hne
          | cons a t => exact h2 a (List.mem_cons_self a t)
        have hsome :=
          nearestScan_isSome D rev (rev.headD 0) n i hin hi (hD _ i hcur hin)
        rw [hscan] at hsome
        simp at hsome
      | some p =>
        have hp := nearestScan_some D rev _ n p hscan
        refine nnLoop_perm D n hD fuel (p :: rev) (by simp)
          (List.nodup_cons.mpr ⟨hp.1, h1⟩) ?_ ?_
        · intro x hx
          rcases List.mem_cons.mp hx with rfl | hx'
          · exact hp.2
          · exact h2 x hx'
        · rw [List.length_cons]
          omega
    · rw [if_neg hlen]
      refine perm_range_of_nodup_bounded _ n (by simpa using h1) ?_ ?_
      · intro x hx
        exact h2 x (List.mem_reverse.mp hx)
      · rw [List.length_reverse]
        omega

/-! ## Facts about 2-opt -/

/-- Bounds on the pairs scanned by `twoOptImprovement`. -/
lemma mem_improvePairs (len i j : Nat) (h : (i, j) ∈ improvePairs len) :
    i + 2 ≤ j ∧ j < len := by
  rw [improvePairs, List.mem_flatMap] at h
  obtain ⟨i', hi', hmem⟩ := h
  rw [List.mem_map] at hmem
  obtain ⟨j', hj', heq⟩ := hmem
  obtain ⟨rfl, rfl⟩ := Prod.mk.inj heq
  rw [List.mem_range] at hi'
  rw [List.mem_range'] at hj'
  obtain ⟨k, hk, rfl⟩ := hj'
  omega

/-- Reversing an inner segment permutes the tour. -/
lemma segReverse_perm (l : List Nat) (i j : Nat) (hij : i ≤ j)
    (_hj : j < l.length) : (segReverse l i j).Perm l := by
  have hdd : (l.drop (i + 1)).drop (j - i) = l.drop (j + 1) := by
    rw [List.drop_drop]
    congr 1
    omega
  rw [segReverse, List.append_assoc]
  have h2 : List.Perm
      (((l.drop (i + 1)).take (j - i)).reverse ++ l.drop (j + 1))
      ((l.drop (i + 1)).take (j - i) ++ l.drop (j + 1)) :=
    (List.reverse_perm _).append_right _
  refine (h2.append_left (l.take (i + 1))).trans ?_
  rw [← hdd, List.take_append_drop, List.take_append_drop]

/-- Reversing an inner segment keeps the head in place. -/
lemma segReverse_head (a : Nat) (t : List Nat) (i j : Nat) :
    (segReverse (a :: t) i j).head? = some a := by
  rw [segReverse, List.take_succ_cons, List.cons_append, List.cons_append]
  rfl

/-- What a successful improvement pass yields: a strictly shorter tour
that is a permutation of the input with the same head. -/
lemma findImprovement_some (D : Nat → Nat → Dist) (best t : List Nat)
    (h : findImprovement D best = some t) :
    calculateTourDistance t D < calculateTourDistance best D ∧
      t.Perm best ∧ t.head? = best.head? := by
  rw [findImprovement] at h
  obtain ⟨ij, hmem, hf⟩ := List.exists_of_findSome?_eq_some h
  obtain ⟨hij, hj⟩ := mem_improvePairs best.length ij.1 ij.2 hmem
  dsimp only at hf
  split at hf
  · rename_i hlt
    have ht : t = segReverse best ij.1 ij.2 := (Option.some_inj.mp hf).symm
    subst ht
    refine ⟨hlt, segReverse_perm best ij.1 ij.2 (by omega) hj, ?_⟩
    cases best with
    | nil => simp at hj
    | cons a tl => rw [segReverse_head]; rfl
  · exact absurd hf (by simp)

/-- The 2-opt loop never increases the tour distance. -/
lemma twoOptLoop_le (D : Nat → Nat → Dist) :
    ∀ (fuel : Nat) (t : List Nat),
      calculateTourDistance (twoOptLoop D fuel t) D ≤
        calculateTourDistance t D
  | 0, _ => le_refl _
  | fuel + 1, t => by
    rw [twoOptLoop]
    cases hfi : findImprovement D t with
    | none => exact le_refl _
    | some t2 =>
      exact le_trans (twoOptLoop_le D fuel t2)
        (le_of_lt (findImprovement_some D t t2 hfi).1)

/-- The 2-opt loop permutes its input tour. -/
lemma twoOptLoop_perm (D : Nat → Nat → Dist) :
    ∀ (fuel : Nat) (t : List Nat), (twoOptLoop D fuel t).Perm t
  | 0, _ => List.Perm.refl _
  | fuel + 1, t => by
    rw [twoOptLoop]
    cases hfi : findImprovement D t with
    | none => exact List.Perm.refl _
    | some t2 =>
      exact (twoOptLoop_perm D fuel t2).trans
        (findImprovement_some D t t2 hfi).2.1

/-- The 2-opt loop keeps the head of the tour in place. -/
lemma twoOptLoop_head (D : Nat → Nat → Dist) :
    ∀ (fuel : Nat) (t : List Nat), (twoOptLoop D fuel t).head? = t.head?
  | 0, _ => rfl
  | fuel + 1, t => by
    rw [twoOptLoop]
    cases hfi : findImprovement D t with
    | none => rfl
    | some t2 =>
      exact (twoOptLoop_head D fuel t2).trans
        (findImprovement_some D t t2 hfi).2.2

/-- When no scanned reversal strictly improves, the loop is the
identity. -/
lemma twoOptLoop_fixed (D : Nat → Nat → Dist) (t : List Nat)
    (h : ∀ i j, i + 2 ≤ j → j < t.length →
      ¬ calculateTourDistance (segReverse t i j) D <
        calculateTourDistance t D) :
    ∀ fuel : Nat, twoOptLoop D fuel t = t
  | 0 => rfl
  | fuel + 1 => by
    rw [twoOptLoop]
    have hnone : findImprovement D t = none := by
      rw [findImprovement, List.findSome?_eq_none_iff]
      intro ij hij
      obtain ⟨h1, h2⟩ := mem_improvePairs t.length ij.1 ij.2 hij
      dsimp only
      rw [if_neg (h ij.1 ij.2 h1 h2)]
    rw [hnone]

/-! ## Facts about the raw-cell dijkstra loop -/

lemma jsLt_nan_left (a b : JSVal) (h : toNumber a = none) :
    jsLt a b = false := by
  unfold jsLt
  rw [h]

/-- When every matrix read coerces to `NaN`, relaxation never fires. -/
lemma relaxAll_nan (M : Nat → Nat → JSVal) (path : List Nat)
    (current n : Nat) (dist : Nat → JSVal)
    (hM : ∀ i j, toNumber (M i j) = none) :
    relaxAll M path current n dist = dist := by
  rw [relaxAll, foldl_fixed]
  intro i _
  rw [if_neg]
  rintro ⟨_, h2⟩
  rw [jsLt_nan_left _ _ (hM current i)] at h2
  simp at h2

/-- When no unvisited index has a `distances` entry below `Infinity`, the
selection scan returns the sentinel. -/
lemma selectMin_none (path : List Nat) (n : Nat) (dist : Nat → JSVal)
    (h : ∀ i, i < n → i ∉ path → jsLt (dist i) (JSVal.num ⊤) = false) :
    selectMin path n dist = none := by
  rw [selectMin, foldl_fixed]
  intro i hi
  rw [if_neg]
  rintro ⟨h1, h2⟩
  rw [h i (List.mem_range.mp hi) h1] at h2
  simp at h2

/-- The raw-cell loop with an all-object matrix: nothing is ever relaxed or
selected, so the path stays `[0]`. -/
lemma dijkstraPath_nan (M : Nat → Nat → JSVal) (n : Nat)
    (hM : ∀ i j, toNumber (M i j) = none) : dijkstraPath M n = [0] := by
  rw [dijkstraPath]
  cases n with
  | zero => rfl
  | succ m =>
    simp only [dijkstraLoop]
    by_cases hlen : ([0] : List Nat).length < m + 1
    · rw [if_pos hlen, relaxAll_nan M _ _ _ _ hM, selectMin_none]
      · rfl
      · intro i _ hip
        have hne : ¬ i = 0 := by simpa using hip
        rw [if_neg hne]
        rfl
    · rw [if_neg hlen]
      rfl

/-- Whatever happens inside, the dijkstra loop only appends to its path. -/
lemma dijkstraLoop_shape (M : Nat → Nat → JSVal) (n : Nat) :
    ∀ (fuel : Nat) (path : List Nat) (current : Nat) (dist : Nat → JSVal),
      ∃ ext : List Nat,
        dijkstraLoop M n fuel path current dist = (ext ++ path).reverse
  | 0, _, _, _ => ⟨[], rfl⟩
  | fuel + 1, path, current, dist => by
    simp only [dijkstraLoop]
    by_cases hlen : path.length < n
    · rw [if_pos hlen]
      cases hsel : selectMin path n (relaxAll M path current n dist) with
      | none => exact ⟨[], rfl⟩
      | some p =>
        obtain ⟨ext, heq⟩ :=
          dijkstraLoop_shape M n fuel (p :: path) p
            (relaxAll M path current n dist)
        refine ⟨ext ++ [p], ?_⟩
        show dijkstraLoop M n fuel (p :: path) p _ = _
        rw [heq, List.append_assoc, List.singleton_append]
    · rw [if_neg hlen]
      exact ⟨[], rfl⟩

/-- The point sequence returned by `findOptimalRoute` always starts with
the start point. -/
lemma findOptimalRoute_head {α : Type} (o : α → α → Option Cell)
    (points : List α) (startPoint : α) :
    ∃ rest : List α,
      findOptimalRoute o points startPoint = startPoint :: rest := by
  simp only [findOptimalRoute, dijkstraPath]
  obtain ⟨ext, heq⟩ := dijkstraLoop_shape
    (fun i j => cellVal (o ((startPoint :: points).getD i startPoint)
      ((startPoint :: points).getD j startPoint)))
    (startPoint :: points).length (startPoint :: points).length [0] 0
    (fun j => if j = 0 then JSVal.num 0 else JSVal.num ⊤)
  rw [heq, List.reverse_append, List.reverse_singleton,
    List.singleton_append, List.map_cons]
  exact ⟨_, rfl⟩

/-- The head of a nearest-neighbor tour is its start index. -/
lemma nearestNeighbor_head (D : Nat → Nat → Dist) (n s : Nat) (h : s < n) :
    (nearestNeighbor D n s).head? = some s := by
  obtain ⟨ext, heq, _, _⟩ := nnLoop_shape D n n [s]
    (List.nodup_singleton _)
    (by intro x hx; rw [List.mem_singleton] at hx; exact hx ▸ h)
  rw [nearestNeighbor, heq, List.reverse_append, List.reverse_singleton,
    List.singleton_append, List.head?_cons]

/-! ## Oracle totality and matrix conversion -/

lemma mapM_total {β γ : Type} (g : β → Option γ) (dg : γ) :
    ∀ l : List β, (∀ a ∈ l, (g a).isSome) →
      l.mapM g = some (l.map (fun a => (g a).getD dg))
  | [], _ => rfl
  | a :: l, h => by
    obtain ⟨v, hv⟩ := Option.isSome_iff_exists.mp
      (h a (List.mem_cons_self a l))
    rw [List.mapM_cons, hv,
      mapM_total g dg l (fun x hx => h x (List.mem_cons_of_mem _ hx))]
    simp [hv]

/-- A total oracle converts without the `TypeError` on `null.distance`:
the numeric matrix is the grid of coerced distance values. -/
lemma matrixConvert_total {α : Type} (o : α → α → Option Cell)
    (pts : List α) (h : ∀ p q, (o p q).isSome) :
    matrixConvert o pts = some (pts.map (fun p => pts.map
      (fun q => ((o p q).map (fun c => (c.1 : Dist))).getD ⊤))) := by
  have hrow : ∀ p : α,
      pts.mapM (fun q => (o p q).map (fun c => (c.1 : Dist))) =
        some (pts.map
          (fun q => ((o p q).map (fun c => (c.1 : Dist))).getD ⊤)) := by
    intro p
    refine mapM_total _ ⊤ pts (fun q _ => ?_)
    obtain ⟨c, hc⟩ := Option.isSome_iff_exists.mp (h p q)
    rw [hc]
    rfl
  rw [matrixConvert,
    mapM_total _ ([] : List Dist) pts (fun p _ => by rw [hrow p]; rfl)]
  congr 1
  have hfun : (fun p =>
      (pts.mapM (fun q => (o p q).map (fun c => (c.1 : Dist)))).getD []) =
      fun p => pts.map
        (fun q => ((o p q).map (fun c => (c.1 : Dist))).getD ⊤) := by
    funext p
    rw [hrow p]
    rfl
  rw [hfun]

lemma getD_map_lt {β γ : Type} (f : β → γ) (l : List β) (d : γ) (d2 : β) :
    ∀ n : Nat, n < l.length → (l.map f).getD n d = f (l.getD n d2) := by
  induction l with
  | nil => intro n hn; simp at hn
  | cons a l ih =>
    intro n hn
    cases n with
    | zero => rfl
    | succ n => exact ih n (by simpa using hn)

lemma getD_map_eq {β γ : Type} (f : β → γ) (l : List β) (d : β) :
    ∀ n : Nat, (l.map f).getD n (f d) = f (l.getD n d) := by
  induction l with
  | nil => intro n; cases n <;> rfl
  | cons a l ih =>
    intro n
    cases n with
    | zero => rfl
    | succ n => exact ih n

/-- A tour that permutes `range l.length` maps to a permutation of `l`. -/
lemma tour_map_perm {α : Type} (t : List Nat) (l : List α) (d : α)
    (hperm : t.Perm (List.range l.length)) :
    (t.map (fun i => l.getD i d)).Perm l := by
  have hm := hperm.map (fun i => l.getD i d)
  rw [map_getD_range] at hm
  exact hm

/-- Nearest neighbor followed by 2-opt visits everything exactly once when
every in-range matrix entry is finite. -/
lemma nnTSP_perm_core (D : Nat → Nat → Dist) (n : Nat) (hn : 0 < n)
    (hD : ∀ i j, i < n → j < n → D i j < ⊤) :
    (twoOptImprovement (nearestNeighbor D n 0) D 100).Perm
      (List.range n) :=
  (twoOptLoop_perm D 100 _).trans
    (nnLoop_perm D n hD n [0] (by simp) (List.nodup_singleton _)
      (by intro x hx; rw [List.mem_singleton] at hx; omega)
      (by simp))

/-! ## Claim C2 -/

/-- C2 (code bug, evaluated at the failing input): on the scenario matrix
the spec's frontier expansion visits A then B then C and yields
`[H, A, B, C]` (second conjunct, the spec-modelled `frontierPath`); the
shipped `findOptimalRoute` instead returns only `[H]` (first conjunct),
because it feeds raw oracle cells — objects, not numbers — to its `<`
comparisons, which are then always false under JS coercion, so no point is
ever relaxed or selected. -/
theorem claim2_frontier_scenario :
    findOptimalRoute oScn [1, 2, 3] 0 = [0] ∧
      frontierPath D6 4 = [0, 1, 2, 3] := by
  decide

/-! ## Claim C1 -/

/-- C1 counterexample: with a total oracle (every leg reachable and
finite), `findOptimalRoute` returns only the hub — a tour that drops every
delivery point — as a plain array, with no flag of any kind attached (the
repository has no UnreachablePartial flag anywhere). -/
theorem claim1_counterexample :
    findOptimalRoute oConst [11, 12, 13] 10 = [10] ∧
      ¬ List.Perm [10] [10, 11, 12, 13] := by
  decide

/-- C1 (amended): on inputs whose oracle matrix has every leg present (no
`null` cells), `findOptimalRouteTSP` succeeds and its tour is a
permutation of hub plus delivery points, while the frontier
`findOptimalRoute` returns just the hub, silently dropping every delivery
point — and since its return type is a plain point array and the
repository defines no UnreachablePartial flag, the non-permutation is
returned unflagged.  (On inputs with `null` cells the two functions
behave differently again — JS coerces `null` to `0` inside the frontier's
comparisons — and this theorem says nothing about them.) -/
theorem claim1_tour_permutation {α : Type} (o : α → α → Option Cell)
    (points : List α) (startPoint : α)
    (h : ∀ p q, (o p q).isSome = true) :
    (findOptimalRouteTSP o points startPoint).isSome = true ∧
      List.Perm ((findOptimalRouteTSP o points startPoint).getD [])
        (startPoint :: points) ∧
      findOptimalRoute o points startPoint = [startPoint] := by
  have hmc := matrixConvert_total o (startPoint :: points) h
  have hn : 0 < (startPoint :: points).length := by simp
  have hD : ∀ i j, i < (startPoint :: points).length →
      j < (startPoint :: points).length →
      ((((startPoint :: points).map (fun p => (startPoint :: points).map
          (fun q => ((o p q).map (fun c => (c.1 : Dist))).getD ⊤))).getD i
            []).getD j ⊤) < ⊤ := by
    intro i j hi hj
    rw [getD_map_lt _ _ _ startPoint i (by simpa using hi),
      getD_map_lt _ _ _ startPoint j (by simpa using hj)]
    obtain ⟨c, hc⟩ := Option.isSome_iff_exists.mp (h _ _)
    rw [hc]
    exact WithTop.coe_lt_top c.1
  refine ⟨?_, ?_, ?_⟩
  · simp only [findOptimalRouteTSP]
    rw [hmc]
    rfl
  · simp only [findOptimalRouteTSP]
    rw [hmc]
    exact tour_map_perm _ _ _
      (nnTSP_perm_core _ (startPoint :: points).length hn hD)
  · have hM : ∀ i j, toNumber (cellVal
        (o ((startPoint :: points).getD i startPoint)
           ((startPoint :: points).getD j startPoint))) = none := by
      intro i j
      obtain ⟨c, hc⟩ := Option.isSome_iff_exists.mp (h _ _)
      rw [hc]
      rfl
    simp only [findOptimalRoute]
    rw [dijkstraPath_nan _ _ hM]
    rfl

/-- Witness for the amended C1 at a concrete total oracle. -/
theorem claim1_witness :
    (findOptimalRouteTSP oConst [1, 2] 0).isSome = true ∧
      List.Perm ((findOptimalRouteTSP oConst [1, 2] 0).getD []) [0, 1, 2] ∧
      findOptimalRoute oConst [1, 2] 0 = [0] := by
  have h := claim1_tour_permutation oConst [1, 2] 0 (fun _ _ => rfl)
  exact ⟨h.1, h.2.1, h.2.2⟩

/-! ## Numeric evaluation of the metrics -/

/-- The fuel-savings percentage of `calculateTSPRouteMetrics` is the same
rational for every positive total distance. -/
lemma fuelSavings_const (d : ℚ) (hd : d ≠ 0) :
    (d * 1.3 - d) / (d * 1.3) * 100 = 300 / 13 := by
  have h1 : d * 1.3 ≠ 0 := by
    intro h0
    rcases mul_eq_zero.mp h0 with h | h
    · exact hd h
    · norm_num at h
  field_simp
  ring

lemma round_fuel : round ((300 : ℚ) / 13 * 100) = 2308 := by
  have h : ((300 : ℚ) / 13 * 100) = 30000 / 13 := by norm_num
  rw [h, round_eq, Int.floor_eq_iff]
  constructor
  · norm_num
  · norm_num

lemma toFixed2_fuel : toFixed2 ((300 : ℚ) / 13) = "23.08" := by
  simp only [toFixed2]
  rw [round_fuel]
  decide

lemma calcRM_oConst_one (a : Nat) :
    calculateRouteMetrics oConst [a] =
      some { totalDistance := 0, totalTime := 0 } := by
  have hlc : legCells oConst [a] = some [] := rfl
  simp only [calculateRouteMetrics, hlc, Option.map_some', Option.some.injEq,
    Metrics.mk.injEq, List.map_nil, List.sum_nil, Nat.cast_zero]
  norm_num

lemma calcRM_oConst_two (a b : Nat) :
    calculateRouteMetrics oConst [a, b] =
      some { totalDistance := 1, totalTime := 1 } := by
  have hlc : legCells oConst [a, b] = some [(1000, 60)] := rfl
  simp only [calculateRouteMetrics, hlc, Option.map_some', Option.some.injEq,
    Metrics.mk.injEq, List.map_cons, List.map_nil, List.sum_cons,
    List.sum_nil]
  norm_num

lemma calcTSP_oConst_two (a b : Nat) :
    calculateTSPRouteMetrics oConst [a, b] =
      some { totalDistance := 1, totalTime := 1,
             fuelSavingsPercentage := "23.08" } := by
  have hlc : legCells oConst [a, b] = some [(1000, 60)] := rfl
  simp only [calculateTSPRouteMetrics, hlc, Option.map_some',
    Option.some.injEq, TSPMetrics.mk.injEq, List.map_cons, List.map_nil,
    List.sum_cons, List.sum_nil]
  refine ⟨by norm_num, by norm_num, ?_⟩
  have hs : (((1000 : Nat) + 0 : Nat) : ℚ) = 1000 := by norm_num
  rw [hs, fuelSavings_const 1000 (by norm_num), toFixed2_fuel]

lemma calcTSP_oConst_three (a b c : Nat) :
    calculateTSPRouteMetrics oConst [a, b, c] =
      some { totalDistance := 2, totalTime := 2,
             fuelSavingsPercentage := "23.08" } := by
  have hlc : legCells oConst [a, b, c] = some [(1000, 60), (1000, 60)] := rfl
  simp only [calculateTSPRouteMetrics, hlc, Option.map_some',
    Option.some.injEq, TSPMetrics.mk.injEq, List.map_cons, List.map_nil,
    List.sum_cons, List.sum_nil]
  refine ⟨by norm_num, by norm_num, ?_⟩
  have hs : (((1000 : Nat) + (1000 + 0) : Nat) : ℚ) = 2000 := by norm_num
  rw [hs, fuelSavings_const 2000 (by norm_num), toFixed2_fuel]

/-! ## Evaluation of the controller endpoints on the witness inputs -/

lemma reopt_tsp_eval :
    reoptimizeCurrentRoute oConst [10, 20] (some 99) 1 "tsp" =
      .ok ([10, 99], .tspM ⟨1, 1, "23.08"⟩) := by
  have hstep : reoptimizeCurrentRoute oConst [10, 20] (some 99) 1 "tsp" =
      (match calculateTSPRouteMetrics oConst [10, 99] with
       | none => .error (500, "Failed to reoptimize route")
       | some m => .ok ([10, 99], .tspM m)) := rfl
  rw [hstep, calcTSP_oConst_two 10 99]

lemma reopt_dijkstra_eval :
    reoptimizeCurrentRoute oConst [10, 20] (some 99) 1 "dijkstra" =
      .ok ([10, 20], .plainM ⟨1, 1⟩) := by
  have hstep : reoptimizeCurrentRoute oConst [10, 20] (some 99) 1
        "dijkstra" =
      (match calculateRouteMetrics oConst [10, 20] with
       | none => .error (500, "Failed to reoptimize route")
       | some m => .ok ([10, 20], .plainM m)) := rfl
  rw [hstep, calcRM_oConst_two 10 20]

lemma cmp_eval : compareAlgorithms oConst [1, 2] (some 0) = .ok cmpW := by
  have hstep : compareAlgorithms oConst [1, 2] (some 0) =
      (match calculateRouteMetrics oConst [0] with
       | none => .error (500, "Failed to compare algorithms")
       | some dm =>
         match calculateTSPRouteMetrics oConst [0, 1, 2] with
         | none => .error (500, "Failed to compare algorithms")
         | some tm =>
           .ok { dijkstraRoute := [0], dijkstraMetrics := dm,
                 tspRoute := [0, 1, 2], tspMetrics := tm,
                 recommended :=
                   if tm.totalDistance ≤ dm.totalDistance then "tsp"
                   else "dijkstra" }) := rfl
  rw [hstep, calcRM_oConst_one 0, calcTSP_oConst_three 0 1 2]
  dsimp only
  rw [if_neg (by norm_num : ¬ ((2 : ℚ) ≤ 0))]
  rfl

/-! ## Heads of the TSP tours -/

/-- A successful `findOptimalRouteTSP` tour starts at the start point. -/
lemma findOptimalRouteTSP_head {α : Type} (o : α → α → Option Cell)
    (points : List α) (startPoint : α) (r : List α)
    (h : findOptimalRouteTSP o points startPoint = some r) :
    ∃ rest : List α, r = startPoint :: rest := by
  simp only [findOptimalRouteTSP] at h
  split at h
  · exact Option.noConfusion h
  · rename_i rows hmc
    injection h with h
    have hhead : (twoOptImprovement (nearestNeighbor
        (fun i j => ((rows.getD i []).getD j ⊤ : Dist))
        (startPoint :: points).length 0)
        (fun i j => ((rows.getD i []).getD j ⊤ : Dist)) 100).head? =
        some 0 :=
      (twoOptLoop_head _ 100 _).trans
        (nearestNeighbor_head _ _ 0 (by simp))
    cases hT : twoOptImprovement (nearestNeighbor
        (fun i j => ((rows.getD i []).getD j ⊤ : Dist))
        (startPoint :: points).length 0)
        (fun i j => ((rows.getD i []).getD j ⊤ : Dist)) 100 with
    | nil => rw [hT] at hhead; exact Option.noConfusion hhead
    | cons a tl =>
      rw [hT] at hhead h
      have ha : a = 0 := by simpa using hhead
      subst ha
      refine ⟨tl.map (fun index =>
        (startPoint :: points).getD index startPoint), ?_⟩
      rw [← h, List.map_cons]
      rfl

/-! ## Claim C4 -/

/-- C4 counterexample: the TSP branch of `reoptimizeCurrentRoute` places
the caller's `currentPosition` (here `99`) at position `currentPointIndex`
instead of the supplied route's element (`20`), so the returned route
disagrees with the supplied route at the in-range position
`currentPointIndex = 1`. -/
theorem claim4_counterexample :
    reoptimizeCurrentRoute oConst [10, 20] (some 99) 1 "tsp" =
        .ok ([10, 99], .tspM ⟨1, 1, "23.08"⟩) ∧
      ([10, 99] : List Nat)[1]? ≠ ([10, 20] : List Nat)[1]? :=
  ⟨reopt_tsp_eval, by decide⟩

/-- C4 (amended): for every in-range `currentPointIndex`, the route
returned by `reoptimizeCurrentRoute` agrees with the supplied route on
positions `0 .. currentPointIndex` for the dijkstra branch; for the
`'tsp'` branch it agrees on positions `0 .. currentPointIndex - 1` only,
and position `currentPointIndex` holds the caller's `currentPosition`
(which need not equal the supplied route's element there). -/
theorem claim4_reoptimize_agreement {α : Type} (o : α → α → Option Cell)
    (route : List α) (pos : α) (idx : Nat) (hidx : idx < route.length) :
    (∀ r m, reoptimizeCurrentRoute o route (some pos) idx "dijkstra" =
        .ok (r, m) → r.take (idx + 1) = route.take (idx + 1)) ∧
      (∀ r m, reoptimizeCurrentRoute o route (some pos) idx "tsp" =
        .ok (r, m) → r.take idx = route.take idx ∧ r[idx]? = some pos) := by
  have hne : ¬ (route.isEmpty = true) := by
    cases route with
    | nil => simp at hidx
    | cons a t => simp
  cases hdrop : route.drop idx with
  | nil =>
    rw [List.drop_eq_nil_iff] at hdrop
    omega
  | cons p rest =>
    have hlen1 : (route.take idx).length = idx := by
      rw [List.length_take]
      omega
    have hsplit : route.take idx ++ p :: rest = route := by
      conv_rhs => rw [← List.take_append_drop idx route]
      rw [hdrop]
    constructor
    · intro r m h
      simp only [reoptimizeCurrentRoute] at h
      rw [if_neg hne, if_pos hidx,
        if_neg (by decide : ¬ (jsToLowerCase "dijkstra" = "tsp"))] at h
      split at h
      · exact Except.noConfusion h
      · rename_i m2 hm2
        injection h with h
        obtain ⟨hr, _⟩ := Prod.mk.inj h
        subst hr
        simp only [reoptimizeRoute, hdrop]
        obtain ⟨frest, hfr⟩ := findOptimalRoute_head o rest p
        rw [hfr]
        conv_rhs => rw [← hsplit]
        rw [take_append_cons_of_length _ _ _ _ hlen1,
          take_append_cons_of_length _ _ _ _ hlen1]
    · intro r m h
      simp only [reoptimizeCurrentRoute] at h
      rw [if_neg hne, if_pos hidx,
        if_pos (by decide : jsToLowerCase "tsp" = "tsp"), hdrop] at h
      split at h
      · exact Except.noConfusion h
      · rename_i tpart htp
        split at h
        · exact Except.noConfusion h
        · rename_i m2 hm2
          injection h with h
          obtain ⟨hr, _⟩ := Prod.mk.inj h
          subst hr
          obtain ⟨trest, htr⟩ := findOptimalRouteTSP_head o _ pos tpart htp
          subst htr
          constructor
          · rw [List.take_left' hlen1]
          · rw [List.getElem?_append_right (by omega), hlen1]
            simp

/-- Witness for the amended C4 at concrete inputs (the trivial-looking
third conjunct is the dijkstra-branch conclusion at the same inputs). -/
theorem claim4_witness :
    ([10, 99] : List Nat).take 1 = ([10, 20] : List Nat).take 1 ∧
      ([10, 99] : List Nat)[1]? = some 99 ∧
      ([10, 20] : List Nat).take 2 = ([10, 20] : List Nat).take 2 := by
  have h := claim4_reoptimize_agreement oConst [10, 20] 99 1 (by decide)
  exact ⟨(h.2 [10, 99] (.tspM ⟨1, 1, "23.08"⟩) reopt_tsp_eval).1,
    (h.2 [10, 99] (.tspM ⟨1, 1, "23.08"⟩) reopt_tsp_eval).2,
    h.1 [10, 20] (.plainM ⟨1, 1⟩) reopt_dijkstra_eval⟩

/-! ## Claim C5 -/

/-- C5: whenever `compareAlgorithms` succeeds, the `recommended` field is
the algorithm with the strictly smaller computed total distance, and on an
exact tie it is the TSP family, never the frontier heuristic. -/
theorem claim5_recommended {α : Type} (o : α → α → Option Cell)
    (points : List α) (startPoint : Option α) (c : Comparison α)
    (h : compareAlgorithms o points startPoint = .ok c) :
    (c.tspMetrics.totalDistance < c.dijkstraMetrics.totalDistance →
        c.recommended = "tsp") ∧
      (c.dijkstraMetrics.totalDistance < c.tspMetrics.totalDistance →
        c.recommended = "dijkstra") ∧
      (c.tspMetrics.totalDistance = c.dijkstraMetrics.totalDistance →
        c.recommended = "tsp") := by
  simp only [compareAlgorithms] at h
  split at h
  · exact Except.noConfusion h
  · split at h
    · exact Except.noConfusion h
    · rename_i s
      split at h
      · exact Except.noConfusion h
      · rename_i dm hdm
        split at h
        · exact Except.noConfusion h
        · rename_i tr htr
          split at h
          · exact Except.noConfusion h
          · rename_i tm htm
            injection h with h
            subst h
            refine ⟨fun hlt => ?_, fun hlt => ?_, fun heq => ?_⟩
            · exact if_pos (le_of_lt hlt)
            · exact if_neg (not_le.mpr hlt)
            · exact if_pos (le_of_eq heq)

/-- Witness for C5: on the concrete comparison, the frontier heuristic's
(degenerate) total distance 0 beats the TSP family's 2, so the theorem
forces `recommended = "dijkstra"`. -/
theorem claim5_witness : cmpW.recommended = "dijkstra" := by
  have h := claim5_recommended oConst [1, 2] (some 0) cmpW cmp_eval
  exact h.2.1 (by norm_num [cmpW])

/-! ## Claim C7 -/

/-- C7 counterexample: an upstream response with a failed leg but a
successful top-level status does NOT fail — `getDistanceMatrix` returns a
matrix (with a `null` marker at the failed leg) instead of an
`OracleError`. -/
theorem claim7_counterexample :
    (getDistanceMatrixFromResponse resp7).isOk = true ∧
      ((resp7.rows.getD 0 []).getD 1 ⟨"", 0, 0⟩).status ≠ "OK" := by
  constructor
  · rfl
  · decide

/-- C7 (amended): `getDistanceMatrix` fails exactly when the top-level
response status is non-success; a per-leg failure does not fail the call —
the returned matrix carries the explicit `null` marker for that leg, and
no default distance value is substituted. -/
theorem claim7_oracle_status (resp : DMResponse) :
    ((getDistanceMatrixFromResponse resp).isOk = true ↔
        resp.status = "OK") ∧
      (∀ m, getDistanceMatrixFromResponse resp = .ok m → ∀ i j,
        (m.getD i []).getD j none =
          (if ((resp.rows.getD i []).getD j ⟨"", 0, 0⟩).status = "OK"
           then some
             (((resp.rows.getD i []).getD j ⟨"", 0, 0⟩).distanceValue,
              ((resp.rows.getD i []).getD j ⟨"", 0, 0⟩).durationValue)
           else none)) := by
  constructor
  · rw [getDistanceMatrixFromResponse]
    by_cases hs : resp.status = "OK"
    · rw [if_neg (not_not_intro hs)]
      exact ⟨fun _ => hs, fun _ => rfl⟩
    · rw [if_pos hs]
      exact ⟨fun h0 => Bool.noConfusion h0, fun h0 => absurd h0 hs⟩
  · intro m hm i j
    rw [getDistanceMatrixFromResponse] at hm
    split at hm
    · exact Except.noConfusion hm
    · injection hm with hm
      subst hm
      rw [show ([] : List (Option Cell)) =
          (fun row => row.map cellConv) ([] : List DMElement) from rfl,
        getD_map_eq]
      rw [show (none : Option Cell) = cellConv ⟨"", 0, 0⟩ from rfl,
        getD_map_eq]
      rfl

/-- Witness for the amended C7 at the concrete mixed response. -/
theorem claim7_witness :
    (getDistanceMatrixFromResponse resp7).isOk = true ∧
      (mat7.getD 0 []).getD 1 none = none := by
  have h := claim7_oracle_status resp7
  refine ⟨h.1.mpr rfl, ?_⟩
  have h2 := h.2 mat7 rfl 0 1
  rw [h2]
  decide

/-! ## Claim C8 -/

/-- C8: `optimizeRoute` called with an empty delivery-point list fails
with the 400 invalid-input error and returns no tour, whatever the start
point and algorithm. -/
theorem claim8_empty_input {α : Type} (o : α → α → Option Cell)
    (startPoint : Option α) (algorithm : String) :
    optimizeRoute o [] startPoint algorithm =
      .error (400,
        "Delivery points are required and must be a non-empty array") :=
  rfl

/-! ## Claim C9 -/

/-- C9: whenever `calculateTSPRouteMetrics` succeeds with a positive total
distance (any route of at least two points with a positive leg sum), the
`fuelSavingsPercentage` field is the constant string `"23.08"` — the value
`30 / 1.3` rounded to two decimals — independent of the route, its length
and the oracle's distances; it is not derived by comparing two metrics
results. -/
theorem claim9_fuel_constant {α : Type} (o : α → α → Option Cell)
    (route : List α) (m : TSPMetrics)
    (h : calculateTSPRouteMetrics o route = some m)
    (hpos : 0 < m.totalDistance) :
    m.fuelSavingsPercentage = "23.08" := by
  simp only [calculateTSPRouteMetrics] at h
  cases hlc : legCells o route with
  | none => rw [hlc] at h; exact Option.noConfusion h
  | some legs =>
    rw [hlc, Option.map_some'] at h
    injection h with h
    subst h
    simp only at hpos ⊢
    have hS : ((legs.map Prod.fst).sum : ℚ) ≠ 0 := by
      intro h0
      rw [h0] at hpos
      norm_num at hpos
    rw [fuelSavings_const _ hS, toFixed2_fuel]

/-- Witness for C9 at a concrete two-point route. -/
theorem claim9_witness :
    ((⟨1, 1, "23.08"⟩ : TSPMetrics)).fuelSavingsPercentage = "23.08" :=
  claim9_fuel_constant oConst [0, 1] _ (calcTSP_oConst_two 0 1)
    (by norm_num)

/-! ## Claim C10 -/

/-- C10: for every square distance matrix and every in-range `startIndex`,
the output of `nearestNeighbor` begins with `startIndex`, contains no
duplicate indices, and contains only valid indices into the matrix — also
when it terminates early because no unvisited index has a finite edge from
the current index, in which case the partial tour is still duplicate-free. -/
theorem claim10_nn_invariants (D : Nat → Nat → Dist) (n startIndex : Nat)
    (h : startIndex < n) :
    (nearestNeighbor D n startIndex).head? = some startIndex ∧
      (nearestNeighbor D n startIndex).Nodup ∧
      ∀ x ∈ nearestNeighbor D n startIndex, x < n := by
  obtain ⟨ext, heq, hnd, hbd⟩ := nnLoop_shape D n n [startIndex]
    (List.nodup_singleton _)
    (by intro x hx; rw [List.mem_singleton] at hx; exact hx ▸ h)
  rw [nearestNeighbor, heq]
  refine ⟨?_, List.nodup_reverse.mpr hnd, ?_⟩
  · rw [List.reverse_append, List.reverse_singleton, List.singleton_append,
      List.head?_cons]
  · intro x hx
    exact hbd x (List.mem_reverse.mp hx)

/-- Witness for C10 at the concrete scenario matrix, starting at index 2. -/
theorem claim10_witness :
    (nearestNeighbor D6 4 2).head? = some 2 ∧
      (nearestNeighbor D6 4 2).Nodup ∧
      (nearestNeighbor D6 4 2).all (fun x => decide (x < 4)) = true := by
  have h := claim10_nn_invariants D6 4 2 (by decide)
  refine ⟨h.1, h.2.1, ?_⟩
  rw [List.all_eq_true]
  intro x hx
  exact decide_eq_true (h.2.2 x hx)

/-! ## Claim C3 -/

/-- C3: for every input tour and every distance matrix, the total tour
distance (sum of consecutive legs, no return leg) of `twoOptImprovement`'s
output is at most that of the input; and when no strictly improving
segment reversal exists, the output equals the input. -/
theorem claim3_twoOpt_monotone (tour : List Nat) (D : Nat → Nat → Dist)
    (maxIterations : Nat) :
    calculateTourDistance (twoOptImprovement tour D maxIterations) D ≤
        calculateTourDistance tour D ∧
      ((∀ i j, i + 2 ≤ j → j < tour.length →
          ¬ calculateTourDistance (segReverse tour i j) D <
            calculateTourDistance tour D) →
        twoOptImprovement tour D maxIterations = tour) :=
  ⟨twoOptLoop_le D maxIterations tour,
    fun h => twoOptLoop_fixed D tour h maxIterations⟩

/-- Witness for C3 on the scenario matrix and the tour `[0, 1, 2, 3]`,
where no reversal improves. -/
theorem claim3_witness :
    calculateTourDistance (twoOptImprovement [0, 1, 2, 3] D6 100) D6 ≤
        calculateTourDistance [0, 1, 2, 3] D6 ∧
      twoOptImprovement [0, 1, 2, 3] D6 100 = [0, 1, 2, 3] := by
  have h := claim3_twoOpt_monotone [0, 1, 2, 3] D6 100
  refine ⟨h.1, h.2 ?_⟩
  intro i j h1 h2
  simp only [List.length_cons, List.length_nil] at h2
  have hi : i < 2 := by omega
  interval_cases i <;> interval_cases j <;> decide

/-! ## Claim C6 -/

/-- C6: on the scenario matrix (H-A=1, H-B=10, H-C=10, A-B=1, A-C=9,
B-C=1, with H,A,B,C at indices 0,1,2,3), `nearestNeighbor` from H returns
the tour `[H, A, B, C]`, and `twoOptImprovement` applied to that tour and
matrix returns it unchanged. -/
theorem claim6_scenario :
    nearestNeighbor D6 4 0 = [0, 1, 2, 3] ∧
      twoOptImprovement [0, 1, 2, 3] D6 100 = [0, 1, 2, 3] := by
  decide

end Drivers
